import Mathlib

/-!
# Verification of the Zazu Parliament coordination core

A shallow embedding, in Lean 4, of the inter-subsystem coordination and
policy-adjudication engine of the `zazu_parliament` repository:

* the Sentinel adjudicator (`src/agents/sentinel_agent.py`): jurisdiction
  gate, the four-stage veto pipeline, the bounded halt-repair loop with
  escalation, and the anti-paralysis rate monitor;
* the request/reply protocol and the compliance wrapper of
  `src/agents/base_agent.py`;
* the executor's approval-gated sandbox dispatch
  (`src/agents/executor_agent.py`);
* the orchestrator's consensus aggregation (`src/core/chorus.py`).

Python dictionaries are embedded as structures carrying exactly the fields
the modelled code reads or writes; side effects (database writes, reflective
logs, bus publishes) are embedded as explicit effect traces; the
`async`/`await` structure of the source is sequential per call and is
embedded by ordinary sequential composition.

The constitution configuration file (`core/constitution.json`) is not part
of the source tree; every value the modelled code reads from it
(threshold-action set, veto keyword lists, per-subsystem constraint sets,
`max_repair_cycles`, anti-paralysis threshold and window) is therefore a
parameter, collected in the `Constitution` structure.
-/

namespace Zazu

/-- True iff `pat` occurs as a contiguous substring of `l`.  This models
Python's `needle in haystack` test on strings. -/
def hasInfixChars (pat : List Char) : List Char → Bool
  | [] => pat.isEmpty
  | c :: rest => List.isPrefixOf pat (c :: rest) || hasInfixChars pat rest

/-- Python `pat in text` on strings. -/
def strHas (text pat : String) : Bool :=
  hasInfixChars pat.toList text.toList

/-- Python `s.replace('_', ' ').lower()`, used by
`SentinelAgent._pattern_match` on the configured violation pattern. -/
def underscoreToSpaceLower (s : String) : String :=
  String.mk (s.toList.map (fun ch => if ch = '_' then ' ' else ch.toLower))

/-- A submitted artifact.  In the source an artifact is an arbitrary JSON
dictionary; the Sentinel's checks observe it only through
(a) `json.dumps(artifact).lower()` — substring tests on the dumped
lowercased text — and (b) `'execute_command' in artifact` — top-level key
membership.  The embedding carries exactly these two observations. -/
structure Artifact where
  /-- Source: `json.dumps(artifact).lower()` -/
  dump : String
  /-- the top-level keys of the artifact dictionary -/
  keys : List String
  deriving DecidableEq, Repr

/-- The `{'passed': ..., 'reason': ..., 'fault_code': ...}` dictionaries
returned by the four veto checks (on a pass, `reason`/`fault_code` are
absent in the source; here they are carried as dummy values and only read
on a failure, as in the source). -/
structure CheckResult where
  passed : Bool
  reason : String
  fault_code : String
  deriving DecidableEq, Repr

/-- The configuration the Sentinel reads from `core/constitution.json`
(the file itself is outside `src/`, so its contents are parameters).
`halt_threshold` is the float the source compares the halt rate against;
it is modelled exactly as the fraction
`halt_threshold_num / halt_threshold_den`. -/
structure Constitution where
  /-- Source: `axioms.permissive_until_dangerous.restriction_thresholds` (keys) -/
  restriction_thresholds : List String
  /-- halt conditions of `pre_execution_checks[0]` (long-arc coherence) -/
  coherence_halt_conditions : List String
  /-- halt conditions of `pre_execution_checks[1]` (harm/legality/irreversibility) -/
  boundary_halt_conditions : List String
  /-- Source: `moral_physics.dual_anchoring.protection_of_user_arc` -/
  protection_of_user_arc : List String
  /-- Source: `moral_physics.dual_anchoring.safeguarding_external_world` -/
  safeguarding_external_world : List String
  /-- Source: `subsystems`: for each subsystem name, its `constraints` list -/
  subsystems : List (String × List String)
  /-- Source: `operational_constraints.halt_repair_loop.max_repair_cycles` -/
  max_repair_cycles : Nat
  /-- numerator of `operational_constraints.anti_paralysis.halt_threshold` -/
  halt_threshold_num : Nat
  /-- denominator of the same (positive) -/
  halt_threshold_den : Nat
  /-- the `N` parsed from `anti_paralysis.measurement_window = "last_N_decisions"` -/
  measurement_window : Nat
  deriving DecidableEq, Repr

/-- Models `SentinelAgent._is_threshold_action`: membership of the action type in
the configured `restriction_thresholds`. -/
def is_threshold_action (c : Constitution) (action_type : String) : Bool :=
  c.restriction_thresholds.contains action_type

/-- Models `SentinelAgent._detect_coherence_violation`: the source returns the
conservative default `False` unconditionally (Mirror integration is a
placeholder). -/
def detect_coherence_violation (_artifact : Artifact) (_halt_condition : String) : Bool :=
  false

/-- The keyword table of `SentinelAgent._detect_boundary_violation`. -/
def boundary_violation_keywords (halt_condition : String) : List String :=
  if halt_condition = "crosses_harm_boundary" then ["harm", "damage", "hurt", "destroy"]
  else if halt_condition = "violates_legality" then ["illegal", "unlawful", "fraud"]
  else if halt_condition = "creates_irreversible_action" then ["delete", "irreversible", "permanent"]
  else []

/-- Models `SentinelAgent._detect_boundary_violation`: any keyword associated with
the halt condition occurs in the dumped artifact text. -/
def detect_boundary_violation (artifact : Artifact) (halt_condition : String) : Bool :=
  (boundary_violation_keywords halt_condition).any (fun kw => strHas artifact.dump kw)

/-- Models `SentinelAgent._pattern_match`: the pattern, lowercased with
underscores replaced by spaces, occurs in the dumped artifact text. -/
def pattern_match (artifact : Artifact) (pattern : String) : Bool :=
  strHas artifact.dump (underscoreToSpaceLower pattern)

/-- Models `SentinelAgent._moral_regression_test` (veto check 1, Law 5): first a
coherence sweep (whose detector constantly returns false in the source),
then the harm/legality/irreversibility boundary sweep; the first halting
condition found decides the failure. -/
def moral_regression_test (c : Constitution) (artifact : Artifact) : CheckResult :=
  match c.coherence_halt_conditions.find? (fun hc => detect_coherence_violation artifact hc) with
  | some hc =>
    { passed := false
      reason := "Violates long-arc coherence: " ++ hc
      fault_code := "coherence_violation" }
  | none =>
    match c.boundary_halt_conditions.find? (fun hc => detect_boundary_violation artifact hc) with
    | some hc =>
      { passed := false
        reason := "Crosses boundary: " ++ hc
        fault_code := "boundary_violation" }
    | none => { passed := true, reason := "", fault_code := "" }

/-- Models `SentinelAgent._ethical_boundary_check` (veto check 2, Laws 1 & 2):
user-arc protection patterns first, then external-world safeguards; the
first matching pattern decides the failure. -/
def ethical_boundary_check (c : Constitution) (artifact : Artifact) : CheckResult :=
  match c.protection_of_user_arc.find? (fun p => pattern_match artifact p) with
  | some p =>
    { passed := false
      reason := "Violates user arc protection: " ++ p
      fault_code := "user_arc_violation" }
  | none =>
    match c.safeguarding_external_world.find? (fun p => pattern_match artifact p) with
    | some p =>
      { passed := false
        reason := "Violates external safeguards: " ++ p
        fault_code := "external_harm" }
    | none => { passed := true, reason := "", fault_code := "" }

/-- The fixed `prohibited_keywords` list of
`SentinelAgent._legal_constraint_check`. -/
def prohibited_keywords : List String :=
  ["illegal", "fraud", "laundering", "hack", "exploit",
   "steal", "insider trading", "manipulation"]

/-- Models `SentinelAgent._legal_constraint_check` (veto check 3): the first
prohibited keyword occurring in the dumped artifact text decides the
failure. -/
def legal_constraint_check (artifact : Artifact) : CheckResult :=
  match prohibited_keywords.find? (fun kw => strHas artifact.dump kw) with
  | some kw =>
    { passed := false
      reason := "Potential legal violation detected: " ++ kw
      fault_code := "legal_violation" }
  | none => { passed := true, reason := "", fault_code := "" }

/-- Models `SentinelAgent._subsystem_constraint_check` (veto check 4): if the
origin subsystem is configured, the first of its constraints that mentions
`cannot_execute` while the artifact has an `execute_command` key decides
the failure. -/
def subsystem_constraint_check (c : Constitution) (artifact : Artifact)
    (subsystem_origin : String) : CheckResult :=
  match c.subsystems.find? (fun p => p.fst = subsystem_origin) with
  | none => { passed := true, reason := "", fault_code := "" }
  | some entry =>
    match entry.snd.find? (fun con =>
        strHas con "cannot_execute" && artifact.keys.contains "execute_command") with
    | some con =>
      { passed := false
        reason := subsystem_origin ++ " violated constraint: " ++ con
        fault_code := "subsystem_constraint_violation" }
    | none => { passed := true, reason := "", fault_code := "" }

/-- The three decision verdicts of the adjudicator. -/
inductive DecisionKind
  | approve
  | halt
  | escalate
  deriving DecidableEq, Repr

/-- A decision dictionary as returned by `SentinelAgent._process_input` /
`_issue_halt`.  Fields absent from a given dictionary in the source are
`none` here (the source's `timestamp` field is not modelled: no claim and
no modelled code reads it). -/
structure Decision where
  decision : DecisionKind
  /-- the `reason` key (only on the `not_threshold_action` approve) -/
  reason : Option String := none
  halt_reason : Option String := none
  fault_code : Option String := none
  repair_cycle : Option Nat := none
  escalation_target : Option String := none
  halt_event_id : Option Nat := none
  deriving DecidableEq, Repr

/-- The Sentinel's runtime state: the Decision Window and the repair-cycle
counter.  `next_halt_event_id` models the ids the `halt_events` table
returns from `INSERT ... RETURNING id` (fresh per insert). -/
structure SentinelState where
  recent_decisions : List Decision := []
  current_repair_cycle : Nat := 0
  next_halt_event_id : Nat := 0
  deriving DecidableEq, Repr

/-- Observable side effects of one Sentinel step: the `halt_events` insert,
reflective log entries, and the calibration-trigger publish on the
`system:calibration` channel (carrying the halt count and window size from
which the source computes and reports the halt rate). -/
inductive SentinelEffect
  | insert_halt_event (halted_subsystem : String) (halt_reason : String) (repair_cycle_count : Nat)
  | reflective_log (log_type : String) (message : String)
  | publish_calibration (halt_count : Nat) (total_decisions : Nat)
  deriving DecidableEq, Repr

/-- Python's `l[-w:]` (for the window trim `recent_decisions[-measurement_window:]`). -/
def takeLastPy (w : Nat) (l : List Decision) : List Decision :=
  if w = 0 then l else l.drop (l.length - w)

/-- The source compares the float `halt_count / len(window)` against the
float `halt_threshold` with `>`.  Both quotients are exact here (small
integers), so the comparison is modelled exactly by cross-multiplication:
`hc / n > num / den  ↔  hc * den > num * n` (with `n, den > 0`). -/
def halt_rate_exceeds (c : Constitution) (halt_count total : Nat) : Bool :=
  c.halt_threshold_num * total < halt_count * c.halt_threshold_den

/-- Whether a windowed decision counts toward the halt rate:
`d['decision'] in ['halt', 'escalate']`. -/
def counts_as_halt (d : Decision) : Bool :=
  d.decision = DecisionKind.halt || d.decision = DecisionKind.escalate

/-- Models `SentinelAgent._check_anti_paralysis`: below 10 recorded decisions do
nothing; otherwise trim the window to the last `measurement_window`
entries, compute the halt rate over the trimmed window, and on exceeding
the threshold emit the reflective log and the calibration-trigger publish. -/
def check_anti_paralysis (c : Constitution) (st : SentinelState) :
    SentinelState × List SentinelEffect :=
  if st.recent_decisions.length < 10 then (st, [])
  else
    let trimmed := takeLastPy c.measurement_window st.recent_decisions
    let halt_count := (trimmed.filter counts_as_halt).length
    let st' := { st with recent_decisions := trimmed }
    if halt_rate_exceeds c halt_count trimmed.length then
      (st',
       [SentinelEffect.reflective_log "anti_paralysis_trigger"
          "Halt rate exceeds threshold",
        SentinelEffect.publish_calibration halt_count trimmed.length])
    else (st', [])

/-- Models `SentinelAgent._issue_halt`: increment the repair-cycle counter,
persist the halt event; at or above `max_repair_cycles` return an
`escalate` decision (with the reflective escalation log, and without
touching the Decision Window); below it, return a `halt` decision,
append it to the Decision Window and run the anti-paralysis monitor. -/
def issue_halt (c : Constitution) (st : SentinelState) (reason fault_code : String)
    (context_origin : Option String) : SentinelState × List SentinelEffect × Decision :=
  let cycle := st.current_repair_cycle + 1
  let event_id := st.next_halt_event_id
  let logEff := SentinelEffect.insert_halt_event (context_origin.getD "unknown") reason cycle
  let st1 : SentinelState :=
    { st with current_repair_cycle := cycle, next_halt_event_id := event_id + 1 }
  if c.max_repair_cycles ≤ cycle then
    (st1,
     [logEff,
      SentinelEffect.reflective_log "escalation"
        "Max repair cycles exceeded. Escalating to user."],
     { decision := DecisionKind.escalate
       halt_reason := some reason
       fault_code := some fault_code
       repair_cycle := some cycle
       escalation_target := some "user_via_mirror"
       halt_event_id := some event_id })
  else
    let d : Decision :=
      { decision := DecisionKind.halt
        halt_reason := some reason
        fault_code := some fault_code
        repair_cycle := some cycle
        halt_event_id := some event_id }
    let st2 : SentinelState := { st1 with recent_decisions := st1.recent_decisions ++ [d] }
    let ap := check_anti_paralysis c st2
    (ap.1, logEff :: ap.2, d)

/-- The input dictionary of `SentinelAgent._process_input`.
`context_origin` is `context.get('subsystem_origin', ...)` as read by
`_issue_halt` (`none` when the key is absent). -/
structure SentinelInput where
  artifact : Artifact
  subsystem_origin : String
  action_type : String
  context_origin : Option String := none
  deriving DecidableEq, Repr

/-- Names for the four veto checks, in pipeline order; used to record which
checks a run of the pipeline evaluated. -/
inductive CheckName
  | moral_regression
  | ethical_boundary
  | legal_constraint
  | subsystem_constraint
  deriving DecidableEq, Repr

/-- The result of one `_process_input` call: the successor state, the
emitted effects, the checks that were evaluated (instrumentation of the
control flow: each branch lists exactly the checks the source has called
on that path), and the returned decision dictionary. -/
structure StepResult where
  state : SentinelState
  effects : List SentinelEffect
  checks_run : List CheckName
  decision : Decision
  deriving DecidableEq, Repr

/-- Models `SentinelAgent._process_input`: the jurisdiction gate, then the four
veto checks in order with fail-fast halting, then the approve path which
appends to the Decision Window and runs the anti-paralysis monitor. -/
def process_input (c : Constitution) (st : SentinelState) (input : SentinelInput) : StepResult :=
  if is_threshold_action c input.action_type = false then
    { state := st, effects := [], checks_run := [],
      decision := { decision := DecisionKind.approve, reason := some "not_threshold_action" } }
  else
    let moral := moral_regression_test c input.artifact
    if moral.passed = false then
      let ih := issue_halt c st moral.reason moral.fault_code input.context_origin
      { state := ih.1, effects := ih.2.1,
        checks_run := [CheckName.moral_regression], decision := ih.2.2 }
    else
      let ethical := ethical_boundary_check c input.artifact
      if ethical.passed = false then
        let ih := issue_halt c st ethical.reason ethical.fault_code input.context_origin
        { state := ih.1, effects := ih.2.1,
          checks_run := [CheckName.moral_regression, CheckName.ethical_boundary],
          decision := ih.2.2 }
      else
        let legal := legal_constraint_check input.artifact
        if legal.passed = false then
          let ih := issue_halt c st legal.reason legal.fault_code input.context_origin
          { state := ih.1, effects := ih.2.1,
            checks_run := [CheckName.moral_regression, CheckName.ethical_boundary,
                           CheckName.legal_constraint], decision := ih.2.2 }
        else
          let subsystem := subsystem_constraint_check c input.artifact input.subsystem_origin
          if subsystem.passed = false then
            let ih := issue_halt c st subsystem.reason subsystem.fault_code input.context_origin
            { state := ih.1, effects := ih.2.1,
              checks_run := [CheckName.moral_regression, CheckName.ethical_boundary,
                             CheckName.legal_constraint, CheckName.subsystem_constraint],
              decision := ih.2.2 }
          else
            let d : Decision := { decision := DecisionKind.approve }
            let st2 : SentinelState := { st with recent_decisions := st.recent_decisions ++ [d] }
            let ap := check_anti_paralysis c st2
            { state := ap.1, effects := ap.2,
              checks_run := [CheckName.moral_regression, CheckName.ethical_boundary,
                             CheckName.legal_constraint, CheckName.subsystem_constraint],
              decision := d }

/-- Sequential submissions to one Sentinel instance: thread the state,
collect each step's result. -/
def sentinel_run (c : Constitution) : SentinelState → List SentinelInput → List StepResult
  | _, [] => []
  | st, i :: rest =>
    let r := process_input c st i
    r :: sentinel_run c r.state rest

/-! ## Request/Reply protocol (`BaseAgent.request`) -/

/-- Bus operations performed by one `BaseAgent.request` call, in program
order: `self.redis.publish(...)`, `pubsub.subscribe(...)`,
`pubsub.unsubscribe(...)`. -/
inductive BusEvent
  | publish_event (channel : String)
  | subscribe_event (channel : String)
  | unsubscribe_event (channel : String)
  deriving DecidableEq, Repr

/-- Whether a matching reply eventually arrives on the reply topic within
the timeout (`reply payload`), or the call times out. -/
inductive ReplyOutcome
  | reply (payload : String)
  | timeout
  deriving DecidableEq, Repr

/-- Models `BaseAgent.request`: build the correlation id
(`{self}:{target}:{timestamp}`) and the two channel names, publish the
request envelope to `request:{target}`, then subscribe to
`response:{request_id}` and await; on a reply, unsubscribe and return the
payload; on timeout, unsubscribe and return `none`.  The returned trace
lists the bus operations in the order the source performs them. -/
def request_run (self_subsystem target timestamp : String) (outcome : ReplyOutcome) :
    List BusEvent × Option String :=
  let request_id := self_subsystem ++ ":" ++ target ++ ":" ++ timestamp
  let request_channel := "request:" ++ target
  let response_channel := "response:" ++ request_id
  match outcome with
  | ReplyOutcome.reply payload =>
    ([BusEvent.publish_event request_channel,
      BusEvent.subscribe_event response_channel,
      BusEvent.unsubscribe_event response_channel], some payload)
  | ReplyOutcome.timeout =>
    ([BusEvent.publish_event request_channel,
      BusEvent.subscribe_event response_channel,
      BusEvent.unsubscribe_event response_channel], none)

/-- Recognizer for subscribe operations in a bus trace. -/
def is_subscribe_evt : BusEvent → Bool
  | BusEvent.subscribe_event _ => true
  | _ => false

/-- Recognizer for publish operations in a bus trace. -/
def is_publish_evt : BusEvent → Bool
  | BusEvent.publish_event _ => true
  | _ => false

/-- The ordering property the specification asserts of `request`: the
subscription is established at a strictly earlier position of the trace
than the publish of the request envelope. -/
def subscribe_precedes_publish (tr : List BusEvent) : Prop :=
  tr.findIdx is_subscribe_evt < tr.findIdx is_publish_evt

instance (tr : List BusEvent) : Decidable (subscribe_precedes_publish tr) := by
  unfold subscribe_precedes_publish
  exact Nat.decLt _ _

/-! ## Compliance wrapper (`BaseAgent.process`) -/

/-- Persisted effects of one `BaseAgent.process` call, each mirroring one
source call: `write_episodic("input_received", {'input': ...})`,
`write_episodic("output_generated", {'output': ...})`,
`_log_violation(...)` with its input+output context snapshot, and
`write_episodic("processing_error", {'error': ..., 'input': ...})`. -/
inductive WrapEffect (α β : Type)
  | write_episodic_input (input : α)
  | write_episodic_output (output : β)
  | log_violation (violation_type severity description : String) (input : α) (output : β)
  | write_episodic_error (error : String) (input : α)

/-- The faults `BaseAgent.process` can raise: the inactive-subsystem
`RuntimeError`, a fault propagated from the subsystem logic, and the
constraint-violation `ValueError`. -/
inductive WrapError
  | not_active
  | logic_error (msg : String)
  | constraint_violation
  deriving DecidableEq, Repr

/-- Models `BaseAgent.process`: raise if inactive; persist the input; run the
subsystem logic (`_process_input`, a collaborator here), recording and
re-raising its faults; validate the output with the subsystem's
post-condition predicate (`_check_constraints`), and on rejection persist
the Violation Record and raise the constraint-violation fault — which the
source's `except` block also records as a `processing_error` episodic
event before re-raising; on success persist and return the output. -/
def process_wrapper {α β : Type} (subsystem_id : String) (active : Bool)
    (logic : α → Except String β) (check_constraints : β → Bool) (input : α) :
    List (WrapEffect α β) × Except WrapError β :=
  if active = false then ([], Except.error WrapError.not_active)
  else
    let inEff := WrapEffect.write_episodic_input (β := β) input
    match logic input with
    | Except.error e =>
      ([inEff, WrapEffect.write_episodic_error e input], Except.error (WrapError.logic_error e))
    | Except.ok output =>
      if check_constraints output = false then
        ([inEff,
          WrapEffect.log_violation "constraint_violation" "major"
            ("Output violates " ++ subsystem_id ++ " constraints") input output,
          WrapEffect.write_episodic_error "Constitutional constraint violation" input],
         Except.error WrapError.constraint_violation)
      else
        ([inEff, WrapEffect.write_episodic_output output], Except.ok output)

/-! ## Executor (`ExecutorAgent._process_input`) -/

/-- The `execution_result` dictionary of the executor. -/
structure ExecResult where
  status : String
  output : Option String := none
  errors : List String := []
  rollback_available : Bool := false
  deriving DecidableEq, Repr

/-- The executor's output dictionary (`executed_at` timestamp not
modelled: nothing reads it). -/
structure ExecOutput where
  execution_result : ExecResult
  deriving DecidableEq, Repr

/-- Observable steps of one executor call: the Sentinel approval
round-trip, the sandboxed execution attempt, the success episodic record
plus history append, and the error episodic record. -/
inductive ExecEffect (τ : Type)
  | request_approval (task : τ)
  | sandbox_execute (task : τ)
  | write_episodic_executed (task : τ)
  | append_history (task : τ)
  | write_episodic_exec_error (task : τ) (error : String)

/-- Models `ExecutorAgent._request_sentinel_approval`, reduced to what it builds
from the Sentinel's response: `approved` is
`approval_response['decision'] == 'approve'`, `reason` is
`approval_response.get('halt_reason', '')`. -/
structure Approval where
  approved : Bool
  reason : String
  deriving DecidableEq, Repr

/-- The approval dictionary built from a Sentinel decision. -/
def approval_from_response (d : Decision) : Approval :=
  { approved := decide (d.decision = DecisionKind.approve)
    reason := d.halt_reason.getD "" }

/-- Models `ExecutorAgent._process_input`: unless `skip_approval`, request
Sentinel approval (`approval_response` is the Sentinel's decision for this
task) and, if not approved, return a `rejected` execution result carrying
the rejection reason without touching the sandbox; otherwise attempt the
sandboxed execution (`sandbox` is `_execute_sandboxed`, a collaborator
that can raise), recording success or routing a raised fault through
`_handle_execution_error`. -/
def executor_process_input {τ : Type} (approval_response : Decision)
    (sandbox : τ → Except String ExecResult) (task : τ) (skip_approval : Bool) :
    List (ExecEffect τ) × ExecOutput :=
  let approvalEffs : List (ExecEffect τ) :=
    if skip_approval = false then [ExecEffect.request_approval task] else []
  if skip_approval = false ∧ (approval_from_response approval_response).approved = false then
    (approvalEffs,
     { execution_result :=
        { status := "rejected"
          output := none
          errors := [(approval_from_response approval_response).reason]
          rollback_available := false } })
  else
    match sandbox task with
    | Except.ok result =>
      (approvalEffs ++
        [ExecEffect.sandbox_execute task, ExecEffect.write_episodic_executed task,
         ExecEffect.append_history task],
       { execution_result := result })
    | Except.error e =>
      (approvalEffs ++
        [ExecEffect.sandbox_execute task, ExecEffect.write_episodic_exec_error task e],
       { execution_result :=
          { status := "failure", output := none, errors := [e], rollback_available := false } })

/-- Recognizer for sandbox-execution steps in an executor effect trace. -/
def is_sandbox_evt {τ : Type} : ExecEffect τ → Bool
  | ExecEffect.sandbox_execute _ => true
  | _ => false

/-! ## Orchestrator consensus (`Chorus._get_consensus`) -/

/-- The consensus dictionary returned by `Chorus._get_consensus`.  The
additional perspectives are recorded by contributing agent name; the
attached view/score payloads are opaque to the consensus computation
(the source only tests the list for emptiness). -/
structure Consensus where
  consensus_score : ℚ
  additional_perspectives : List String
  threshold_met : Bool
  deriving Repr

/-- Models `Chorus._get_consensus`: gather a perspective from the strategist and
from the ledger exactly when each is absent from
`current_result['agents_involved']`; the consensus score is the placeholder
`0.75` when any perspective was gathered and `1.0` otherwise; the
threshold test is `consensus_score >= 0.66`. -/
def get_consensus (agents_involved : List String) : Consensus :=
  let perspectives : List String :=
    (if agents_involved.contains "strategist" = false then ["strategist"] else []) ++
    (if agents_involved.contains "ledger" = false then ["ledger"] else [])
  let consensus_score : ℚ := if perspectives.isEmpty = false then 0.75 else 1.0
  { consensus_score := consensus_score
    additional_perspectives := perspectives
    threshold_met := decide (consensus_score ≥ 0.66) }

/-! ## Helper characterizations of the Sentinel pipeline -/

/-- The first failing veto check of the pipeline, in pipeline order,
or `none` when all four pass. -/
def first_failing_check (c : Constitution) (input : SentinelInput) : Option CheckResult :=
  let moral := moral_regression_test c input.artifact
  if moral.passed = false then some moral
  else
    let ethical := ethical_boundary_check c input.artifact
    if ethical.passed = false then some ethical
    else
      let legal := legal_constraint_check input.artifact
      if legal.passed = false then some legal
      else
        let subsystem := subsystem_constraint_check c input.artifact input.subsystem_origin
        if subsystem.passed = false then some subsystem else none

theorem check_anti_paralysis_cycle (c : Constitution) (st : SentinelState) :
    (check_anti_paralysis c st).1.current_repair_cycle = st.current_repair_cycle := by
  unfold check_anti_paralysis
  dsimp only
  split
  · rfl
  · split <;> rfl

theorem issue_halt_cycle (c : Constitution) (st : SentinelState) (re fc : String)
    (co : Option String) :
    (issue_halt c st re fc co).1.current_repair_cycle = st.current_repair_cycle + 1 := by
  unfold issue_halt
  dsimp only
  split
  · rfl
  · simpa using check_anti_paralysis_cycle c _

theorem issue_halt_decision_halt (c : Constitution) (st : SentinelState) (re fc : String)
    (co : Option String) (h : ¬ c.max_repair_cycles ≤ st.current_repair_cycle + 1) :
    (issue_halt c st re fc co).2.2 =
      { decision := DecisionKind.halt
        halt_reason := some re
        fault_code := some fc
        repair_cycle := some (st.current_repair_cycle + 1)
        halt_event_id := some st.next_halt_event_id } := by
  unfold issue_halt
  dsimp only
  rw [if_neg h]

theorem issue_halt_decision_escalate (c : Constitution) (st : SentinelState) (re fc : String)
    (co : Option String) (h : c.max_repair_cycles ≤ st.current_repair_cycle + 1) :
    (issue_halt c st re fc co).2.2 =
      { decision := DecisionKind.escalate
        halt_reason := some re
        fault_code := some fc
        repair_cycle := some (st.current_repair_cycle + 1)
        escalation_target := some "user_via_mirror"
        halt_event_id := some st.next_halt_event_id } := by
  unfold issue_halt
  dsimp only
  rw [if_pos h]

theorem issue_halt_reason_fault (c : Constitution) (st : SentinelState) (re fc : String)
    (co : Option String) :
    (issue_halt c st re fc co).2.2.halt_reason = some re ∧
    (issue_halt c st re fc co).2.2.fault_code = some fc := by
  unfold issue_halt
  dsimp only
  split <;> exact ⟨rfl, rfl⟩

/-- When a threshold-action submission has a first failing check `r`, the
pipeline's outcome is exactly `issue_halt` applied to `r`'s reason and
fault code. -/
theorem process_input_of_first_failing (c : Constitution) (st : SentinelState)
    (input : SentinelInput) (r : CheckResult)
    (ht : is_threshold_action c input.action_type = true)
    (hf : first_failing_check c input = some r) :
    (process_input c st input).decision =
      (issue_halt c st r.reason r.fault_code input.context_origin).2.2 ∧
    (process_input c st input).state =
      (issue_halt c st r.reason r.fault_code input.context_origin).1 := by
  unfold process_input
  unfold first_failing_check at hf
  simp only [ht, Bool.true_eq_false, if_false]
  by_cases h1 : (moral_regression_test c input.artifact).passed = false
  · rw [if_pos h1] at hf ⊢
    injection hf with hr
    subst hr
    exact ⟨rfl, rfl⟩
  · rw [if_neg h1] at hf ⊢
    by_cases h2 : (ethical_boundary_check c input.artifact).passed = false
    · rw [if_pos h2] at hf ⊢
      injection hf with hr
      subst hr
      exact ⟨rfl, rfl⟩
    · rw [if_neg h2] at hf ⊢
      by_cases h3 : (legal_constraint_check input.artifact).passed = false
      · rw [if_pos h3] at hf ⊢
        injection hf with hr
        subst hr
        exact ⟨rfl, rfl⟩
      · rw [if_neg h3] at hf ⊢
        by_cases h4 :
            (subsystem_constraint_check c input.artifact input.subsystem_origin).passed = false
        · rw [if_pos h4] at hf ⊢
          injection hf with hr
          subst hr
          exact ⟨rfl, rfl⟩
        · rw [if_neg h4] at hf
          exact absurd hf (by simp)

/-! ## Concrete fixtures

A concrete constitution for evaluating the model on explicit inputs: the
threshold-action set of the repository's demo configuration, empty
configured keyword lists (so that only the fixed-keyword legal check can
fail), anti-paralysis threshold `0.5` over a window of the last 10
decisions, and a parameterized `max_repair_cycles`. -/

def constParl (max_cycles : Nat) : Constitution :=
  { restriction_thresholds := ["execution", "irreversible_publication", "financial_exposure"]
    coherence_halt_conditions := []
    boundary_halt_conditions := []
    protection_of_user_arc := []
    safeguarding_external_world := []
    subsystems := []
    max_repair_cycles := max_cycles
    halt_threshold_num := 1
    halt_threshold_den := 2
    measurement_window := 10 }

/-- A threshold-action submission whose artifact mentions `fraud`, so the
legal constraint check fails. -/
def failing_submission : SentinelInput :=
  { artifact := { dump := "\x7bcontent: a fraud plan\x7d", keys := ["content"] }
    subsystem_origin := "executor"
    action_type := "execution"
    context_origin := some "executor" }

/-- A threshold-action submission passing all four veto checks. -/
def passing_submission : SentinelInput :=
  { artifact := { dump := "\x7bcontent: benign operation\x7d", keys := ["content"] }
    subsystem_origin := "executor"
    action_type := "execution"
    context_origin := some "executor" }

/-- Recognizer for calibration-trigger publishes in a Sentinel effect
trace. -/
def is_calibration_evt : SentinelEffect → Bool
  | SentinelEffect.publish_calibration _ _ => true
  | _ => false

/-! ## Claim theorems -/

/-- Fixture for C2: a failing, a passing, then a failing submission to one
Sentinel with a large `max_repair_cycles` (all failures yield `halt`). -/
def repair_reset_run : List StepResult :=
  sentinel_run (constParl 100) {} [failing_submission, passing_submission, failing_submission]

/-- Fixture for C3: three consecutive failing submissions with
`max_repair_cycles = 3` (the third resolves to `escalate`). -/
def escalate_window_run : List StepResult :=
  sentinel_run (constParl 3) {} [failing_submission, failing_submission, failing_submission]

/-- Fixture for C4: six failing then four passing submissions, Decision
Window of size 10, halt-rate threshold `0.5`, and `max_repair_cycles`
large enough (100) that each failing submission resolves to an appended
`halt` decision. -/
def paralysis_run : List StepResult :=
  sentinel_run (constParl 100) {}
    (List.replicate 6 failing_submission ++ List.replicate 4 passing_submission)

/-- C1, counterexample: in a concrete `BaseAgent.request` call the
subscription to the per-call reply topic is NOT established before the
request envelope is published — the trace publishes first. -/
theorem C1_subscribe_before_publish_counterexample :
    ¬ subscribe_precedes_publish
        (request_run "executor" "sentinel" "1700000000.0" ReplyOutcome.timeout).1 := by
  decide

/-- C1, amended: in every `BaseAgent.request` call the publish of the
request envelope is the first bus operation of the call and the
subscription to the per-call reply topic only the second, so a reply
published immediately after the request can be missed. -/
theorem C1_publish_then_subscribe (self_subsystem target timestamp : String)
    (outcome : ReplyOutcome) :
    ((request_run self_subsystem target timestamp outcome).1.findIdx is_publish_evt = 0) ∧
    ((request_run self_subsystem target timestamp outcome).1.findIdx is_subscribe_evt = 1) := by
  cases outcome <;>
    simp [request_run, List.findIdx_cons, is_publish_evt, is_subscribe_evt]

/-- C2: after an approve for an origin, the next failing submission from
that same origin is reported with `repair_cycle = 2`, not `1` — the
repair-cycle counter is never reset by an approve (it is a single global
counter with no reset anywhere in the source). -/
theorem C2_repair_cycle_not_reset_after_approve :
    (repair_reset_run.map (fun r => (r.decision.decision, r.decision.repair_cycle))) =
      [(DecisionKind.halt, some 1), (DecisionKind.approve, none), (DecisionKind.halt, some 2)] := by
  decide

/-- C3: with `max_repair_cycles = 3`, the third consecutive failing
submission resolves to `escalate`, but the escalate decision is NOT
appended to the Decision Window: after the three steps the window holds
only the two halt decisions (the `_issue_halt` escalate branch returns
before the append — even though the rate monitor counts `escalate`
entries in the window). -/
theorem C3_escalate_not_appended_to_window :
    ((escalate_window_run.map (fun r => r.decision.decision)) =
      [DecisionKind.halt, DecisionKind.halt, DecisionKind.escalate]) ∧
    ((escalate_window_run.getLast?).map
        (fun r => r.state.recent_decisions.map (fun d => d.decision)) =
      some [DecisionKind.halt, DecisionKind.halt]) := by
  decide

/-- C4, counterexample: in the 6-failing-then-4-passing scenario (window
10, threshold 0.5), the step that appends the 6th decision publishes no
calibration-trigger event (the monitor does not evaluate below 10
collected decisions). -/
theorem C4_no_calibration_at_sixth_counterexample :
    ((paralysis_run.get? 5).map (fun r => r.effects.countP is_calibration_evt)) = some 0 := by
  decide

/-- C4, amended: the 6-failing-then-4-passing scenario causes exactly one
calibration-trigger event, published immediately after the 10th decision
is appended — the monitor only begins evaluating once 10 decisions have
been collected. -/
theorem C4_single_calibration_after_tenth :
    (paralysis_run.map (fun r => r.effects.countP is_calibration_evt)) =
      [0, 0, 0, 0, 0, 0, 0, 0, 0, 1] := by
  decide

/-- C5: with `max_repair_cycles = 3` and a zero counter, three
consecutive failing threshold-action submissions yield `halt` with
`repair_cycle` 1, `halt` with `repair_cycle` 2, and `escalate` with
`repair_cycle` 3 naming the human-facing escalation target
`user_via_mirror`. -/
theorem C5_three_failures_halt_halt_escalate
    (c : Constitution) (st : SentinelState) (i1 i2 i3 : SentinelInput)
    (r1 r2 r3 : CheckResult)
    (hmax : c.max_repair_cycles = 3)
    (h0 : st.current_repair_cycle = 0)
    (ht1 : is_threshold_action c i1.action_type = true)
    (hf1 : first_failing_check c i1 = some r1)
    (ht2 : is_threshold_action c i2.action_type = true)
    (hf2 : first_failing_check c i2 = some r2)
    (ht3 : is_threshold_action c i3.action_type = true)
    (hf3 : first_failing_check c i3 = some r3) :
    ((process_input c st i1).decision.decision = DecisionKind.halt ∧
      (process_input c st i1).decision.repair_cycle = some 1) ∧
    ((process_input c (process_input c st i1).state i2).decision.decision = DecisionKind.halt ∧
      (process_input c (process_input c st i1).state i2).decision.repair_cycle = some 2) ∧
    ((process_input c (process_input c (process_input c st i1).state i2).state i3).decision.decision
        = DecisionKind.escalate ∧
      (process_input c (process_input c (process_input c st i1).state i2).state i3).decision.repair_cycle
        = some 3 ∧
      (process_input c (process_input c (process_input c st i1).state i2).state i3).decision.escalation_target
        = some "user_via_mirror") := by
  obtain ⟨hd1, hs1⟩ := process_input_of_first_failing c st i1 r1 ht1 hf1
  obtain ⟨hd2, hs2⟩ :=
    process_input_of_first_failing c (process_input c st i1).state i2 r2 ht2 hf2
  obtain ⟨hd3, hs3⟩ :=
    process_input_of_first_failing c
      (process_input c (process_input c st i1).state i2).state i3 r3 ht3 hf3
  have hc1 : (process_input c st i1).state.current_repair_cycle = 1 := by
    rw [hs1, issue_halt_cycle, h0]
  have hc2 :
      (process_input c (process_input c st i1).state i2).state.current_repair_cycle = 2 := by
    rw [hs2, issue_halt_cycle, hc1]
  rw [hd1, hd2, hd3]
  rw [issue_halt_decision_halt c st _ _ _ (by rw [hmax, h0]; decide),
      issue_halt_decision_halt c _ _ _ _ (by rw [hmax, hc1]; decide),
      issue_halt_decision_escalate c _ _ _ _ (by rw [hmax, hc2])]
  refine ⟨⟨rfl, ?_⟩, ⟨rfl, ?_⟩, rfl, ?_, rfl⟩
  · rw [h0]
  · rw [hc1]
  · rw [hc2]

/-- C5, witness: the scenario instantiated with a concrete constitution
(`max_repair_cycles = 3`) and a concrete failing submission (legal check
fails on the `fraud` keyword). -/
theorem C5_three_failures_witness :
    ((process_input (constParl 3) {} failing_submission).decision.decision = DecisionKind.halt ∧
      (process_input (constParl 3) {} failing_submission).decision.repair_cycle = some 1) ∧
    ((process_input (constParl 3)
          (process_input (constParl 3) {} failing_submission).state
          failing_submission).decision.decision = DecisionKind.halt ∧
      (process_input (constParl 3)
          (process_input (constParl 3) {} failing_submission).state
          failing_submission).decision.repair_cycle = some 2) ∧
    ((process_input (constParl 3)
          (process_input (constParl 3)
            (process_input (constParl 3) {} failing_submission).state
            failing_submission).state
          failing_submission).decision.decision = DecisionKind.escalate ∧
      (process_input (constParl 3)
          (process_input (constParl 3)
            (process_input (constParl 3) {} failing_submission).state
            failing_submission).state
          failing_submission).decision.repair_cycle = some 3 ∧
      (process_input (constParl 3)
          (process_input (constParl 3)
            (process_input (constParl 3) {} failing_submission).state
            failing_submission).state
          failing_submission).decision.escalation_target = some "user_via_mirror") :=
  C5_three_failures_halt_halt_escalate (constParl 3) {} failing_submission failing_submission
    failing_submission
    { passed := false
      reason := "Potential legal violation detected: fraud"
      fault_code := "legal_violation" }
    { passed := false
      reason := "Potential legal violation detected: fraud"
      fault_code := "legal_violation" }
    { passed := false
      reason := "Potential legal violation detected: fraud"
      fault_code := "legal_violation" }
    rfl rfl (by decide) (by decide) (by decide) (by decide) (by decide) (by decide)

/-- C6: for every threshold-action submission the four veto checks are
evaluated strictly in the order moral regression, ethical boundary, legal
constraint, origin-subsystem constraint; the first failing check's reason
and fault code become the Decision, and no later check is evaluated after
a failure (the recorded `checks_run` trace stops at the failing check). -/
theorem C6_fail_fast_ordering (c : Constitution) (st : SentinelState) (input : SentinelInput)
    (ht : is_threshold_action c input.action_type = true) :
    ((moral_regression_test c input.artifact).passed = false →
      (process_input c st input).decision.halt_reason =
        some (moral_regression_test c input.artifact).reason ∧
      (process_input c st input).decision.fault_code =
        some (moral_regression_test c input.artifact).fault_code ∧
      (process_input c st input).checks_run = [CheckName.moral_regression]) ∧
    ((moral_regression_test c input.artifact).passed = true →
      (ethical_boundary_check c input.artifact).passed = false →
      (process_input c st input).decision.halt_reason =
        some (ethical_boundary_check c input.artifact).reason ∧
      (process_input c st input).decision.fault_code =
        some (ethical_boundary_check c input.artifact).fault_code ∧
      (process_input c st input).checks_run =
        [CheckName.moral_regression, CheckName.ethical_boundary]) ∧
    ((moral_regression_test c input.artifact).passed = true →
      (ethical_boundary_check c input.artifact).passed = true →
      (legal_constraint_check input.artifact).passed = false →
      (process_input c st input).decision.halt_reason =
        some (legal_constraint_check input.artifact).reason ∧
      (process_input c st input).decision.fault_code =
        some (legal_constraint_check input.artifact).fault_code ∧
      (process_input c st input).checks_run =
        [CheckName.moral_regression, CheckName.ethical_boundary, CheckName.legal_constraint]) ∧
    ((moral_regression_test c input.artifact).passed = true →
      (ethical_boundary_check c input.artifact).passed = true →
      (legal_constraint_check input.artifact).passed = true →
      (subsystem_constraint_check c input.artifact input.subsystem_origin).passed = false →
      (process_input c st input).decision.halt_reason =
        some (subsystem_constraint_check c input.artifact input.subsystem_origin).reason ∧
      (process_input c st input).decision.fault_code =
        some (subsystem_constraint_check c input.artifact input.subsystem_origin).fault_code ∧
      (process_input c st input).checks_run =
        [CheckName.moral_regression, CheckName.ethical_boundary, CheckName.legal_constraint,
         CheckName.subsystem_constraint]) := by
  refine ⟨fun h1 => ?_, fun h1 h2 => ?_, fun h1 h2 h3 => ?_, fun h1 h2 h3 h4 => ?_⟩
  · unfold process_input
    simp only [ht, Bool.true_eq_false, if_false, h1, if_true]
    exact ⟨(issue_halt_reason_fault c st _ _ _).1, (issue_halt_reason_fault c st _ _ _).2, trivial⟩
  · unfold process_input
    simp only [ht, Bool.true_eq_false, eq_self_iff_true, if_false, h1, h2, if_true]
    exact ⟨(issue_halt_reason_fault c st _ _ _).1, (issue_halt_reason_fault c st _ _ _).2, trivial⟩
  · unfold process_input
    simp only [ht, Bool.true_eq_false, eq_self_iff_true, if_false, h1, h2, h3, if_true]
    exact ⟨(issue_halt_reason_fault c st _ _ _).1, (issue_halt_reason_fault c st _ _ _).2, trivial⟩
  · unfold process_input
    simp only [ht, Bool.true_eq_false, eq_self_iff_true, if_false, h1, h2, h3, h4, if_true]
    exact ⟨(issue_halt_reason_fault c st _ _ _).1, (issue_halt_reason_fault c st _ _ _).2, trivial⟩

/-- C6, witness: the ordering property instantiated on a concrete
submission whose first failing check is the legal constraint check. -/
theorem C6_fail_fast_witness :
    (process_input (constParl 100) {} failing_submission).decision.halt_reason =
      some (legal_constraint_check failing_submission.artifact).reason ∧
    (process_input (constParl 100) {} failing_submission).decision.fault_code =
      some (legal_constraint_check failing_submission.artifact).fault_code ∧
    (process_input (constParl 100) {} failing_submission).checks_run =
      [CheckName.moral_regression, CheckName.ethical_boundary, CheckName.legal_constraint] :=
  (C6_fail_fast_ordering (constParl 100) {} failing_submission (by decide)).2.2.1
    (by decide) (by decide) (by decide)

/-- C7: every submission whose action type is not in the configured
threshold-action set is approved with reason `not_threshold_action`,
with no veto check evaluated, no state change and no effect. -/
theorem C7_not_threshold_bypasses_checks (c : Constitution) (st : SentinelState)
    (input : SentinelInput) (h : is_threshold_action c input.action_type = false) :
    process_input c st input =
      { state := st, effects := [], checks_run := [],
        decision := { decision := DecisionKind.approve, reason := some "not_threshold_action" } } := by
  unfold process_input
  rw [if_pos h]

/-- C7, witness: a concrete submission with the non-threshold action type
`speculation` (the protected-dreamspace carve-out). -/
theorem C7_not_threshold_witness :
    process_input (constParl 100) {}
        { artifact := { dump := "\x7bcontent: dark mythos\x7d", keys := ["content"] }
          subsystem_origin := "artisan"
          action_type := "speculation"
          context_origin := none } =
      { state := {}, effects := [], checks_run := [],
        decision := { decision := DecisionKind.approve, reason := some "not_threshold_action" } } :=
  C7_not_threshold_bypasses_checks (constParl 100) {} _ (by decide)

/-- C8: in the compliance wrapper, if the subsystem logic produces an
output that the subsystem's post-condition predicate rejects, then the
call persists exactly the input audit record, the Violation Record (type
`constraint_violation`, severity `major`, with the input+output snapshot)
and the error audit record, and raises the constraint-violation fault —
the output is never returned. -/
theorem C8_constraint_violation_fatal {α β : Type} (subsystem_id : String)
    (logic : α → Except String β) (check_constraints : β → Bool)
    (input : α) (output : β)
    (hlogic : logic input = Except.ok output)
    (hcheck : check_constraints output = false) :
    process_wrapper subsystem_id true logic check_constraints input =
      ([WrapEffect.write_episodic_input input,
        WrapEffect.log_violation "constraint_violation" "major"
          ("Output violates " ++ subsystem_id ++ " constraints") input output,
        WrapEffect.write_episodic_error "Constitutional constraint violation" input],
       Except.error WrapError.constraint_violation) := by
  unfold process_wrapper
  rw [hlogic]
  simp [hcheck]

/-- C8, witness: a concrete active subsystem whose post-condition rejects
every output. -/
theorem C8_constraint_violation_witness :
    process_wrapper "executor" true (fun s : String => Except.ok (s ++ "!"))
        (fun _ : String => false) "demo input" =
      ([WrapEffect.write_episodic_input "demo input",
        WrapEffect.log_violation "constraint_violation" "major"
          "Output violates executor constraints" "demo input" "demo input!",
        WrapEffect.write_episodic_error "Constitutional constraint violation" "demo input"],
       Except.error WrapError.constraint_violation) :=
  C8_constraint_violation_fatal "executor" (fun s => Except.ok (s ++ "!"))
    (fun _ => false) "demo input" "demo input!" rfl rfl

/-- C9: when approval is required and the Sentinel's decision is not
`approve`, the executor performs no sandboxed execution — its effect
trace is exactly the approval round-trip — and returns an
`execution_result` with status `rejected` carrying the rejection reason
(the decision's `halt_reason`). -/
theorem C9_rejected_execution_no_side_effects {τ : Type} (approval_response : Decision)
    (sandbox : τ → Except String ExecResult) (task : τ)
    (h : approval_response.decision ≠ DecisionKind.approve) :
    executor_process_input approval_response sandbox task false =
      ([ExecEffect.request_approval task],
       { execution_result :=
          { status := "rejected", output := none,
            errors := [approval_response.halt_reason.getD ""],
            rollback_available := false } }) ∧
    ((executor_process_input approval_response sandbox task false).1.countP
        is_sandbox_evt = 0) := by
  have hcond : (approval_from_response approval_response).approved = false := by
    unfold approval_from_response
    simp [h]
  constructor
  · unfold executor_process_input
    rw [if_pos ⟨rfl, hcond⟩]
    rw [if_pos rfl]
    rfl
  · unfold executor_process_input
    rw [if_pos ⟨rfl, hcond⟩]
    rw [if_pos rfl]
    rfl

/-- C9, witness: a concrete halt decision rejecting a concrete task. -/
theorem C9_rejected_execution_witness :
    executor_process_input
        { decision := DecisionKind.halt
          halt_reason := some "Potential legal violation detected: fraud"
          fault_code := some "legal_violation"
          repair_cycle := some 1 }
        (fun _ : String => Except.ok { status := "success" }) "demo_task" false =
      ([ExecEffect.request_approval "demo_task"],
       { execution_result :=
          { status := "rejected", output := none,
            errors := ["Potential legal violation detected: fraud"],
            rollback_available := false } }) ∧
    ((executor_process_input
        { decision := DecisionKind.halt
          halt_reason := some "Potential legal violation detected: fraud"
          fault_code := some "legal_violation"
          repair_cycle := some 1 }
        (fun _ : String => Except.ok { status := "success" }) "demo_task" false).1.countP
        is_sandbox_evt = 0) :=
  C9_rejected_execution_no_side_effects
    { decision := DecisionKind.halt
      halt_reason := some "Potential legal violation detected: fraud"
      fault_code := some "legal_violation"
      repair_cycle := some 1 }
    (fun _ : String => Except.ok { status := "success" }) "demo_task" (by decide)

/-- C10: the consensus score is exactly `0.75` whenever at least one
additional perspective is gathered (the strategist or the ledger was not
yet consulted) and exactly `1.0` when both were already consulted, and in
either case `threshold_met` (`consensus_score >= 0.66`) holds — the fixed
acceptance threshold can never reject a consensus. -/
theorem C10_consensus_threshold_always_met (agents_involved : List String) :
    ((agents_involved.contains "strategist" = false ∨
        agents_involved.contains "ledger" = false) →
      (get_consensus agents_involved).consensus_score = 0.75) ∧
    ((agents_involved.contains "strategist" = true ∧
        agents_involved.contains "ledger" = true) →
      (get_consensus agents_involved).consensus_score = 1) ∧
    (get_consensus agents_involved).threshold_met = true := by
  unfold get_consensus
  cases hs : agents_involved.contains "strategist" <;>
    cases hl : agents_involved.contains "ledger" <;>
    refine ⟨fun hor => ?_, fun hc => ?_, ?_⟩ <;>
    simp_all <;>
    norm_num

/-- C10, witness: one invocation with neither helper consulted (score
`0.75`) and one with both already consulted (score `1.0`); the threshold
is met in both. -/
theorem C10_consensus_witness :
    (get_consensus ["interpreter"]).consensus_score = 0.75 ∧
    (get_consensus ["interpreter", "strategist", "ledger"]).consensus_score = 1 ∧
    (get_consensus ["interpreter"]).threshold_met = true ∧
    (get_consensus ["interpreter", "strategist", "ledger"]).threshold_met = true :=
  ⟨(C10_consensus_threshold_always_met ["interpreter"]).1 (Or.inl (by decide)),
   (C10_consensus_threshold_always_met ["interpreter", "strategist", "ledger"]).2.1
     ⟨by decide, by decide⟩,
   (C10_consensus_threshold_always_met ["interpreter"]).2.2,
   (C10_consensus_threshold_always_met ["interpreter", "strategist", "ledger"]).2.2⟩

end Zazu
